import Mathlib

/-!
Verification development for the scenario-execution engine of the qa-agent
repository (`src/unnamed/part_000`, a Puppeteer-based test runner).

JavaScript strings are modelled as `List Char` (`JStr`).  The string and
regular-expression operations the engine uses (`toLowerCase`, `trim`,
`match`, `replace`, `parseInt`, template literals) are embedded as
executable Lean functions that follow ECMAScript semantics on the
constructs the source actually exercises (ASCII case folding, greedy and
lazy quantifier backtracking, first-occurrence replacement, radix-16
`parseInt` with NaN on empty digit prefixes).
-/

/-- JavaScript string, modelled as a list of characters. -/
abbrev JStr := List Char

/-- ASCII case folding of one character: models `toLowerCase` on the
code points the engine compares (action names, color strings, literals). -/
def lowCh (c : Char) : Char :=
  if 65 ≤ c.toNat ∧ c.toNat ≤ 90 then Char.ofNat (c.toNat + 32) else c

/-- Models `String.prototype.toLowerCase`. -/
def jsToLower (s : JStr) : JStr := s.map lowCh

/-- Models the ECMAScript WhiteSpace/LineTerminator class used by `trim`
and by the regex class `\s` (space, tab, LF, CR, VT, FF, NBSP). -/
def isJsSpace (c : Char) : Bool :=
  c.toNat = 32 || c.toNat = 9 || c.toNat = 10 || c.toNat = 13 ||
  c.toNat = 11 || c.toNat = 12 || c.toNat = 160

/-- Drop trailing whitespace. -/
def jsTrimEnd (s : JStr) : JStr := (s.reverse.dropWhile isJsSpace).reverse

/-- Models `String.prototype.trim`. -/
def jsTrim (s : JStr) : JStr := jsTrimEnd (s.dropWhile isJsSpace)

/-- The regex class `\d` (ASCII digits). -/
def isDigitCh (c : Char) : Bool := 48 ≤ c.toNat && c.toNat ≤ 57

/-- The regex class `[a-z-]` under the `i` flag. -/
def isPropCh (c : Char) : Bool :=
  (97 ≤ c.toNat && c.toNat ≤ 122) || (65 ≤ c.toNat && c.toNat ≤ 90) || c.toNat = 45

/-- The regex metacharacter `.` (anything but a line terminator). -/
def isDotCh (c : Char) : Bool :=
  !(c.toNat = 10 || c.toNat = 13 || c.toNat = 8232 || c.toNat = 8233)

/-- Value of one hexadecimal digit character, if it is one. -/
def hexDigitVal (c : Char) : Option Nat :=
  if 48 ≤ c.toNat ∧ c.toNat ≤ 57 then some (c.toNat - 48)
  else if 97 ≤ c.toNat ∧ c.toNat ≤ 102 then some (c.toNat - 87)
  else if 65 ≤ c.toNat ∧ c.toNat ≤ 70 then some (c.toNat - 55)
  else none

/-- Whether a character is a hexadecimal digit. -/
def isHexCh (c : Char) : Bool := (hexDigitVal c).isSome

/-- Models `String.prototype.includes` (substring containment). -/
def jsIncludes (hay needle : JStr) : Bool :=
  match hay with
  | [] => List.isPrefixOf needle []
  | _ :: rest => List.isPrefixOf needle hay || jsIncludes rest needle

/-- First `some` produced by `f` along a list of candidates; the list
order realises the regex engine's backtracking order. -/
def firstSome {α β : Type} (f : α → Option β) : List α → Option β
  | [] => none
  | a :: as =>
    match f a with
    | some b => some b
    | none => firstSome f as

/-- Candidates for a greedy `p+` group at the current position: every
nonempty prefix of the maximal `p`-run paired with the corresponding
rest, longest (greediest) first. -/
def plusSplits (p : Char → Bool) (cs : JStr) : List (JStr × JStr) :=
  let r := cs.takeWhile p
  let t := cs.dropWhile p
  (List.range r.length).map fun i => (r.take (r.length - i), r.drop (r.length - i) ++ t)

/-- Candidates for a greedy `\s*`: the rest of the input after consuming
k spaces, for k from the maximal run down to zero. -/
def spacesSplits (cs : JStr) : List JStr :=
  let n := (cs.takeWhile isJsSpace).length
  (List.range (n + 1)).map fun i => cs.drop (n - i)

/-- Candidates for the separator `,?\s*` of the `rgb` regex, in
backtracking order (comma consumed first, then without the comma). -/
def sepOptCommaSpaces (cs : JStr) : List JStr :=
  (match cs with
   | ',' :: t => spacesSplits t
   | _ => []) ++ spacesSplits cs

/-- Candidates for the separator `,\s*` of the `rgba` regex. -/
def sepCommaSpaces (cs : JStr) : List JStr :=
  match cs with
  | ',' :: t => spacesSplits t
  | _ => []

/-- Three `(\d+)` groups joined by `sep`, with `fin` deciding whether
the rest of the input is acceptable after the third group; realises the
backtracking of `(\d+)sep(\d+)sep(\d+)` with a trailing context. -/
def threeGroups (sep : JStr → List JStr) (fin : JStr → Bool) (cs : JStr) :
    Option (JStr × JStr × JStr) :=
  firstSome (fun g1 =>
    firstSome (fun r2 =>
      firstSome (fun g2 =>
        firstSome (fun r4 =>
          firstSome (fun g3 =>
            if fin g3.2 then some (g1.1, g2.1, g3.1) else none)
            (plusSplits isDigitCh r4))
          (sep g2.2))
        (plusSplits isDigitCh r2))
      (sep g1.2))
    (plusSplits isDigitCh cs)

/-- Trailing context `\)` of the `rgb` regex. -/
def rgbFin : JStr → Bool
  | ')' :: _ => true
  | _ => false

/-- Body of `/rgb\((\d+),?\s*(\d+),?\s*(\d+)\)/` after the literal head. -/
def rgbGroupsAt : JStr → Option (JStr × JStr × JStr) :=
  threeGroups sepOptCommaSpaces rgbFin

/-- Body of `/rgba?\((\d+),\s*(\d+),\s*(\d+)/` after the literal head. -/
def rgbaGroupsAt : JStr → Option (JStr × JStr × JStr) :=
  threeGroups sepCommaSpaces (fun _ => true)

/-- Attempt `/rgb\((\d+),?\s*(\d+),?\s*(\d+)\)/` anchored at the current
position. -/
def rgbMatchAt (cs : JStr) : Option (JStr × JStr × JStr) :=
  match cs with
  | 'r' :: 'g' :: 'b' :: '(' :: rest => rgbGroupsAt rest
  | _ => none

/-- Leftmost match of the `rgb` regex (models unanchored `String.match`). -/
def rgbSearch : JStr → Option (JStr × JStr × JStr)
  | [] => none
  | c :: rest =>
    match rgbMatchAt (c :: rest) with
    | some g => some g
    | none => rgbSearch rest

/-- Attempt `/rgba?\((\d+),\s*(\d+),\s*(\d+)/` anchored at the current
position: the optional `a?` is greedy, and when it structurally applies
but the groups fail, the `a`-less alternative cannot apply either. -/
def rgbaMatchAt (cs : JStr) : Option (JStr × JStr × JStr) :=
  match cs with
  | 'r' :: 'g' :: 'b' :: 'a' :: '(' :: rest => rgbaGroupsAt rest
  | 'r' :: 'g' :: 'b' :: '(' :: rest => rgbaGroupsAt rest
  | _ => none

/-- Leftmost match of the `rgba` regex. -/
def rgbaSearch : JStr → Option (JStr × JStr × JStr)
  | [] => none
  | c :: rest =>
    match rgbaMatchAt (c :: rest) with
    | some g => some g
    | none => rgbaSearch rest

/-- Digit characters of a natural number, fuel-based so that it reduces
in the kernel; models the decimal rendering of a JS number. -/
def natDigitsAux : Nat → Nat → JStr
  | 0, _ => []
  | fuel + 1, n =>
    if n < 10 then [Char.ofNat (48 + n)]
    else natDigitsAux fuel (n / 10) ++ [Char.ofNat (48 + n % 10)]

/-- Decimal rendering of a natural number. -/
def natDigits (n : Nat) : JStr := natDigitsAux (n + 1) n

/-- Decimal rendering of an integer (JS `${n}` for an integral number;
note `-0` is the integer `0` and renders as `"0"`, as in JS). -/
def intToStr : Int → JStr
  | Int.ofNat n => natDigits n
  | Int.negSucc n => '-' :: natDigits (n + 1)

/-- Rendering of a `parseInt` result in a template literal: a failed
parse is `NaN` and renders as the string `"NaN"`. -/
def numToStr : Option Int → JStr
  | none => ['N', 'a', 'N']
  | some i => intToStr i

/-- Strip an optional `0x`/`0X` prefix (ECMAScript `parseInt`, radix 16). -/
def strip0x : JStr → JStr
  | '0' :: 'x' :: t => t
  | '0' :: 'X' :: t => t
  | t => t

/-- Value of the longest hexadecimal-digit prefix; `none` when there is
no digit (the NaN case of `parseInt`). -/
def hexPrefixVal (cs : JStr) : Option Nat :=
  let ds := cs.takeWhile isHexCh
  if ds.isEmpty then none
  else some (ds.foldl (fun acc c => 16 * acc + (hexDigitVal c).getD 0) 0)

/-- Models `parseInt(s, 16)`: skip whitespace, optional sign, optional
`0x` prefix, longest hexadecimal prefix, NaN (`none`) if empty. -/
def jsParseIntHex (s : JStr) : Option Int :=
  let t := s.dropWhile isJsSpace
  match t with
  | '-' :: u => (hexPrefixVal (strip0x u)).map (fun n => -(n : Int))
  | '+' :: u => (hexPrefixVal (strip0x u)).map (fun n => (n : Int))
  | u => (hexPrefixVal (strip0x u)).map (fun n => (n : Int))

/-- The template literal `rgb(${a}, ${b}, ${c})` used by the normalizer. -/
def mkRgb (a b c : JStr) : JStr :=
  ['r', 'g', 'b', '('] ++ a ++ [',', ' '] ++ b ++ [',', ' '] ++ c ++ [')']

/-- The fixed `colorMap` lookup of `normalizeColorValue` (14 entries,
exact-key lookup on the lowercased, trimmed input). -/
def lookupColor (lc : JStr) : Option JStr :=
  if lc = ['y', 'e', 'l', 'l', 'o', 'w'] then some (mkRgb ['2','5','5'] ['2','5','5'] ['0'])
  else if lc = ['b', 'l', 'u', 'e'] then some (mkRgb ['0'] ['0'] ['2','5','5'])
  else if lc = ['r', 'e', 'd'] then some (mkRgb ['2','5','5'] ['0'] ['0'])
  else if lc = ['g', 'r', 'e', 'e', 'n'] then some (mkRgb ['0'] ['1','2','8'] ['0'])
  else if lc = ['w', 'h', 'i', 't', 'e'] then some (mkRgb ['2','5','5'] ['2','5','5'] ['2','5','5'])
  else if lc = ['b', 'l', 'a', 'c', 'k'] then some (mkRgb ['0'] ['0'] ['0'])
  else if lc = ['g', 'r', 'a', 'y'] then some (mkRgb ['1','2','8'] ['1','2','8'] ['1','2','8'])
  else if lc = ['g', 'r', 'e', 'y'] then some (mkRgb ['1','2','8'] ['1','2','8'] ['1','2','8'])
  else if lc = ['o', 'r', 'a', 'n', 'g', 'e'] then some (mkRgb ['2','5','5'] ['1','6','5'] ['0'])
  else if lc = ['p', 'u', 'r', 'p', 'l', 'e'] then some (mkRgb ['1','2','8'] ['0'] ['1','2','8'])
  else if lc = ['p', 'i', 'n', 'k'] then some (mkRgb ['2','5','5'] ['1','9','2'] ['2','0','3'])
  else if lc = ['b', 'r', 'o', 'w', 'n'] then some (mkRgb ['1','6','5'] ['4','2'] ['4','2'])
  else if lc = ['c', 'y', 'a', 'n'] then some (mkRgb ['0'] ['2','5','5'] ['2','5','5'])
  else if lc = ['m', 'a', 'g', 'e', 'n', 't', 'a'] then some (mkRgb ['2','5','5'] ['0'] ['2','5','5'])
  else none

/-- The `#`-prefixed branch of `normalizeColorValue` (3- or 6-digit hex
converted through `parseInt(..., 16)`), falling back to the input. -/
def normHex (lc : JStr) : JStr :=
  match lc with
  | '#' :: [a, b, c] =>
    mkRgb (numToStr (jsParseIntHex [a, a])) (numToStr (jsParseIntHex [b, b]))
      (numToStr (jsParseIntHex [c, c]))
  | '#' :: [a, b, c, d, e, f] =>
    mkRgb (numToStr (jsParseIntHex [a, b])) (numToStr (jsParseIntHex [c, d]))
      (numToStr (jsParseIntHex [e, f]))
  | _ => lc

/-- The `rgb(` branch of `normalizeColorValue`, then the hex branch. -/
def normAfterRgba (lc : JStr) : JStr :=
  if List.isPrefixOf ['r', 'g', 'b'] lc then
    match rgbSearch lc with
    | some (a, b, c) => mkRgb a b c
    | none => normHex lc
  else normHex lc

/-- Branch structure of `normalizeColorValue` on the lowercased, trimmed
input: named-color map, `rgba` branch, `rgb` branch, hex branch,
passthrough. -/
def normCore (lc : JStr) : JStr :=
  match lookupColor lc with
  | some v => v
  | none =>
    if List.isPrefixOf ['r', 'g', 'b', 'a'] lc then
      match rgbaSearch lc with
      | some (a, b, c) => mkRgb a b c
      | none => normAfterRgba lc
    else normAfterRgba lc

/-- Embeds `normalizeColorValue` (source lines 220-278). -/
def normalizeColorValue (color : JStr) : JStr := normCore (jsTrim (jsToLower color))

example : normalizeColorValue "yellow".data = "rgb(255, 255, 0)".data := by decide
example : normalizeColorValue "#FFFF00".data = "rgb(255, 255, 0)".data := by decide
example : normalizeColorValue "#ff0".data = "rgb(255, 255, 0)".data := by decide
example : normalizeColorValue "rgb(255,255,0)".data = "rgb(255, 255, 0)".data := by decide
example : normalizeColorValue "rgba(255,255,0,0.5)".data = "rgb(255, 255, 0)".data := by decide
example : normalizeColorValue "#zzz".data = "rgb(NaN, NaN, NaN)".data := by decide
example : normalizeColorValue "rgb(123)".data = "rgb(1, 2, 3)".data := by decide
example : normalizeColorValue "  Pink ".data = "rgb(255, 192, 203)".data := by decide
example : normalizeColorValue "1px solid".data = "1px solid".data := by decide

/-- Consume a literal case-insensitively (a regex literal under `i`). -/
def stripCi : JStr → JStr → Option JStr
  | [], cs => some cs
  | _ :: _, [] => none
  | l :: ls, c :: cs => if lowCh c = lowCh l then stripCi ls cs else none

/-- A final greedy `(.+)`: the maximal nonempty run of non-line-terminator
characters (nothing follows it in the pattern, so no backtracking). -/
def dotTail (cs : JStr) : Option JStr :=
  let g := cs.takeWhile isDotCh
  if g.isEmpty then none else some g

/-- Attempt `/([a-z-]+)\s+should\s+be\s+(.+)/i` anchored at the current
position, with the greedy groups' backtracking; returns the two groups. -/
def styleMatchAt (cs : JStr) : Option (JStr × JStr) :=
  firstSome (fun g1 =>
    firstSome (fun sp1 =>
      match stripCi ['s', 'h', 'o', 'u', 'l', 'd'] sp1.2 with
      | none => none
      | some r3 =>
        firstSome (fun sp2 =>
          match stripCi ['b', 'e'] sp2.2 with
          | none => none
          | some r5 =>
            firstSome (fun sp3 =>
              match dotTail sp3.2 with
              | some g2 => some (g1.1, g2)
              | none => none)
              (plusSplits isJsSpace r5))
          (plusSplits isJsSpace r3))
      (plusSplits isJsSpace g1.2))
    (plusSplits isPropCh cs)

/-- Leftmost match of the `check_style` expectation regex (source line 53):
the `(property, expectedValue)` pair, or `none` on a parse failure. -/
def styleMatch : JStr → Option (JStr × JStr)
  | [] => none
  | c :: rest =>
    match styleMatchAt (c :: rest) with
    | some g => some g
    | none => styleMatch rest

/-- Consume one optional double quote (greedy `"?`). -/
def stripQuote : JStr → JStr
  | '"' :: t => t
  | t => t

/-- The tail `"?(.+?)"?` shared by the `check_text`, `fill_input` and
`navigate` replacement patterns: the lazy `(.+?)` captures exactly one
character because the continuation (an optional quote at the end of the
pattern) always succeeds; returns (capture, rest after the match). -/
def lazyQuotedAt : JStr → Option (JStr × JStr)
  | [] => none
  | '"' :: rest =>
    (match rest with
     | c :: rest2 =>
       if isDotCh c then some ([c], stripQuote rest2)
       else some (['"'], stripQuote rest)
     | [] => some (['"'], []))
  | c :: rest => if isDotCh c then some ([c], stripQuote rest) else none

/-- Attempt `/text should (?:contain|be) "?(.+?)"?/i` anchored at the
current position (the alternation tries `contain` first). -/
def textMatchAt (cs : JStr) : Option (JStr × JStr) :=
  match stripCi ['t','e','x','t',' ','s','h','o','u','l','d',' '] cs with
  | none => none
  | some r =>
    match stripCi ['c','o','n','t','a','i','n',' '] r with
    | some r2 =>
      (match lazyQuotedAt r2 with
       | some g => some g
       | none =>
         match stripCi ['b','e',' '] r with
         | some r3 => lazyQuotedAt r3
         | none => none)
    | none =>
      match stripCi ['b','e',' '] r with
      | some r3 => lazyQuotedAt r3
      | none => none

/-- Attempt `/fill with "?(.+?)"?/i` anchored at the current position. -/
def fillMatchAt (cs : JStr) : Option (JStr × JStr) :=
  match stripCi ['f','i','l','l',' ','w','i','t','h',' '] cs with
  | some r => lazyQuotedAt r
  | none => none

/-- Attempt `/navigate to "?(.+?)"?/i` anchored at the current position. -/
def navMatchAt (cs : JStr) : Option (JStr × JStr) :=
  match stripCi ['n','a','v','i','g','a','t','e',' ','t','o',' '] cs with
  | some r => lazyQuotedAt r
  | none => none

/-- Leftmost match for a replacement pattern: (prefix before the match,
capture, rest after the match). -/
def replaceSearch (matchAt : JStr → Option (JStr × JStr)) : JStr → Option (JStr × JStr × JStr)
  | [] =>
    (match matchAt [] with
     | some (g, rest) => some ([], g, rest)
     | none => none)
  | c :: cs =>
    match matchAt (c :: cs) with
    | some (g, rest) => some ([], g, rest)
    | none =>
      match replaceSearch matchAt cs with
      | some (pre, g, rest) => some (c :: pre, g, rest)
      | none => none

/-- Models `String.prototype.replace(regex, "$1")` for the above patterns:
the first match is replaced by its capture; no match leaves the string
unchanged. -/
def jsReplace1 (matchAt : JStr → Option (JStr × JStr)) (s : JStr) : JStr :=
  match replaceSearch matchAt s with
  | some (pre, g, rest) => pre ++ g ++ rest
  | none => s

/-- The `check_text` expected-value extraction (source line 117). -/
def textExtract : JStr → JStr := jsReplace1 textMatchAt

/-- The `fill_input` value extraction (source line 192). -/
def fillExtract : JStr → JStr := jsReplace1 fillMatchAt

/-- The `navigate` URL extraction (source line 150). -/
def navExtract : JStr → JStr := jsReplace1 navMatchAt

example : styleMatch "background-color should be yellow".data =
    some ("background-color".data, "yellow".data) := by decide
example : styleMatch "color SHOULD BE rgb(255, 255, 0)".data =
    some ("color".data, "rgb(255, 255, 0)".data) := by decide
example : styleMatch "no verb here".data = none := by decide
example : textExtract "text should contain \"Hello\"".data = "Hello\"".data := by decide
example : textExtract "text should be Hello".data = "Hello".data := by decide
example : textExtract "unrelated".data = "unrelated".data := by decide
example : fillExtract "fill with \"John\"".data = "John\"".data := by decide
example : fillExtract "fill with x".data = "x".data := by decide
example : navExtract "navigate to \"/home\"".data = "/home\"".data := by decide
example : navExtract "navigate to /home".data = "/home".data := by decide

/-- Embeds the `TestScenario` interface of `src/services/ai-service.ts`. -/
structure TestScenario where
  action : JStr
  target : JStr
  expectedResult : JStr
  description : JStr
deriving DecidableEq, Repr

/-- Embeds the `TestResult` interface (source lines 4-10); the optional
fields are `none` when the source leaves them undefined.  `screenshot`
is never set by `runTests`. -/
structure TestResult where
  scenario : TestScenario
  passed : Bool
  error : Option JStr
  actualValue : Option JStr
  screenshot : Option JStr
deriving DecidableEq, Repr

/-- A resolved DOM element handle, modelled by the outcomes of the
browser primitives the handlers invoke on it; `Except` carries the
message of a thrown (rejected) browser call. -/
structure Elem where
  styleOf : JStr → Except JStr JStr
  textContent : Except JStr (Option JStr)
  click : Except JStr Unit
  hover : Except JStr Unit
  typeInto : JStr → Except JStr Unit

/-- A page handle: the outcomes of `page.$` (selector resolution, which
returns `null` for a missing element and can also reject), `page.goto`
and `page.setViewport`. -/
structure Page where
  find : JStr → Except JStr (Option Elem)
  goto : JStr → Except JStr Unit
  setViewport : Except JStr Unit

/-- A launched browser handle: the outcome of `browser.newPage`. -/
structure Browser where
  newPage : Except JStr Page

/-- Diagnostic `Element "${target}" not found`. -/
def notFoundMsg (target : JStr) : JStr :=
  "Element \"".data ++ target ++ "\" not found".data

/-- Diagnostic of a `check_style` expectation parse failure. -/
def styleParseMsg : JStr :=
  "Could not parse expected result format. Use: \"property-name should be value\"".data

/-- Diagnostic `Expected ${property} to be "${expectedValue}", but got
"${actualValue}"` (raw, untrimmed values, as in the source). -/
def styleFailMsg (property expectedValue actualValue : JStr) : JStr :=
  "Expected ".data ++ property ++ " to be \"".data ++ expectedValue ++
    "\", but got \"".data ++ actualValue ++ "\"".data

/-- Rendering of a nullable string in a template literal (`null` prints
as `null`). -/
def strOrNull : Option JStr → JStr
  | some t => t
  | none => "null".data

/-- Diagnostic `Expected text to contain "${expectedText}", but got
"${actualText}"`. -/
def textFailMsg (expectedText : JStr) (actualText : Option JStr) : JStr :=
  "Expected text to contain \"".data ++ expectedText ++ "\", but got \"".data ++
    strOrNull actualText ++ "\"".data

/-- Diagnostic `Expected element to be ${visible|hidden}`. -/
def visFailMsg (shouldBeVisible : Bool) : JStr :=
  "Expected element to be ".data ++
    (if shouldBeVisible then "visible".data else "hidden".data)

/-- Diagnostic `Unknown action: ${action}` (raw action string). -/
def unknownActionMsg (action : JStr) : JStr := "Unknown action: ".data ++ action

/-- Fatal wrapper `Browser automation failed: ${message}` (source
line 320). -/
def fatalMsg (e : JStr) : JStr := "Browser automation failed: ".data ++ e

/-- The `try` block of `executeScenario` (source lines 36-207): the
`switch` on `action.toLowerCase()` with one arm per supported action;
an `Except.error` is a thrown browser-call rejection that escapes to
the scenario-level `catch`. -/
def executeScenarioBody (page : Page) (s : TestScenario) : Except JStr TestResult :=
  if jsToLower s.action = "check_style".data then
    match page.find s.target with
    | Except.error e => Except.error e
    | Except.ok none =>
      Except.ok ⟨s, false, some (notFoundMsg s.target), none, none⟩
    | Except.ok (some el) =>
      match styleMatch s.expectedResult with
      | none => Except.ok ⟨s, false, some styleParseMsg, none, none⟩
      | some (property, expectedValue) =>
        match el.styleOf (jsTrim property) with
        | Except.error e => Except.error e
        | Except.ok actualValue =>
          let normalizedActual := normalizeColorValue (jsTrim actualValue)
          let normalizedExpected := normalizeColorValue (jsTrim expectedValue)
          let passed := decide (normalizedActual = normalizedExpected)
          Except.ok ⟨s, passed,
            if passed then none
            else some (styleFailMsg property expectedValue actualValue),
            some (jsTrim actualValue), none⟩
  else if jsToLower s.action = "click".data then
    match page.find s.target with
    | Except.error e => Except.error e
    | Except.ok none =>
      Except.ok ⟨s, false, some (notFoundMsg s.target), none, none⟩
    | Except.ok (some el) =>
      match el.click with
      | Except.error e => Except.error e
      | Except.ok _ => Except.ok ⟨s, true, none, none, none⟩
  else if jsToLower s.action = "check_text".data then
    match page.find s.target with
    | Except.error e => Except.error e
    | Except.ok none =>
      Except.ok ⟨s, false, some (notFoundMsg s.target), none, none⟩
    | Except.ok (some el) =>
      match el.textContent with
      | Except.error e => Except.error e
      | Except.ok actualText =>
        let expectedText := textExtract s.expectedResult
        let passed :=
          (match actualText with
           | some t => jsIncludes t expectedText
           | none => false) ||
          decide (actualText = some expectedText)
        Except.ok ⟨s, passed,
          if passed then none else some (textFailMsg expectedText actualText),
          some (match actualText with | some t => t | none => []), none⟩
  else if jsToLower s.action = "check_visibility".data then
    match page.find s.target with
    | Except.error e => Except.error e
    | Except.ok el? =>
      let isVisible := el?.isSome
      let shouldBeVisible := jsIncludes (jsToLower s.expectedResult) "visible".data
      let passed := isVisible == shouldBeVisible
      Except.ok ⟨s, passed,
        if passed then none else some (visFailMsg shouldBeVisible),
        some (if isVisible then "visible".data else "not visible".data), none⟩
  else if jsToLower s.action = "navigate".data then
    match page.goto (navExtract s.expectedResult) with
    | Except.error e => Except.error e
    | Except.ok _ => Except.ok ⟨s, true, none, none, none⟩
  else if jsToLower s.action = "hover".data then
    match page.find s.target with
    | Except.error e => Except.error e
    | Except.ok none =>
      Except.ok ⟨s, false, some (notFoundMsg s.target), none, none⟩
    | Except.ok (some el) =>
      match el.hover with
      | Except.error e => Except.error e
      | Except.ok _ => Except.ok ⟨s, true, none, none, none⟩
  else if jsToLower s.action = "fill_input".data then
    match page.find s.target with
    | Except.error e => Except.error e
    | Except.ok none =>
      Except.ok ⟨s, false, some (notFoundMsg s.target), none, none⟩
    | Except.ok (some el) =>
      match el.typeInto (fillExtract s.expectedResult) with
      | Except.error e => Except.error e
      | Except.ok _ => Except.ok ⟨s, true, none, none, none⟩
  else
    Except.ok ⟨s, false, some (unknownActionMsg s.action), none, none⟩

/-- Embeds `executeScenario` (source lines 32-215): the `try` body with
the scenario-level `catch` that converts any thrown error into a failed
`TestResult` carrying the error message. -/
def executeScenario (page : Page) (s : TestScenario) : TestResult :=
  match executeScenarioBody page s with
  | Except.ok r => r
  | Except.error m => ⟨s, false, some m, none, none⟩

instance {ε α : Type} [DecidableEq ε] [DecidableEq α] : DecidableEq (Except ε α)
  | Except.error a, Except.error b =>
    if h : a = b then isTrue (by rw [h]) else isFalse (by intro hc; injection hc; contradiction)
  | Except.error _, Except.ok _ => isFalse (by intro hc; cases hc)
  | Except.ok _, Except.error _ => isFalse (by intro hc; cases hc)
  | Except.ok a, Except.ok b =>
    if h : a = b then isTrue (by rw [h]) else isFalse (by intro hc; injection hc; contradiction)

/-- Outcome of a whole run: the value returned (or fatal error thrown)
by `runTests`, plus how many times `browser.close()` ran. -/
structure RunOutput where
  result : Except JStr (List TestResult)
  closes : Nat
deriving DecidableEq, Repr

/-- Embeds `runTests` (source lines 283-326).  The ambient effects are
passed in: `launch` is the outcome of `launchBrowser()`.  The `try`
block launches, opens a page, sets the viewport, navigates to the
portal, then executes every scenario in order; the `catch` rethrows any
error wrapped in `fatalMsg`; the `finally` closes the browser exactly
when it was launched (`browser` is non-null). -/
def runTests (launch : Except JStr Browser) (portalUrl : JStr)
    (scenarios : List TestScenario) : RunOutput :=
  match launch with
  | Except.error e => { result := Except.error (fatalMsg e), closes := 0 }
  | Except.ok browser =>
    let body : Except JStr (List TestResult) :=
      match browser.newPage with
      | Except.error e => Except.error e
      | Except.ok page =>
        match page.setViewport with
        | Except.error e => Except.error e
        | Except.ok _ =>
          match page.goto portalUrl with
          | Except.error e => Except.error e
          | Except.ok _ => Except.ok (scenarios.map (executeScenario page))
    { result :=
        match body with
        | Except.ok rs => Except.ok rs
        | Except.error e => Except.error (fatalMsg e),
      closes := 1 }

/-- A healthy element fixture: computed style `rgb(255, 255, 0)`, text
content `Hello`, and interactions that succeed. -/
def okBtnElem : Elem where
  styleOf := fun _ => Except.ok "rgb(255, 255, 0)".data
  textContent := Except.ok (some "Hello".data)
  click := Except.ok ()
  hover := Except.ok ()
  typeInto := fun _ => Except.ok ()

/-- A healthy page fixture: only the selector `#btn` resolves. -/
def demoPage : Page where
  find := fun t => Except.ok (if t = "#btn".data then some okBtnElem else none)
  goto := fun _ => Except.ok ()
  setViewport := Except.ok ()

/-- A healthy browser fixture. -/
def demoBrowser : Browser where
  newPage := Except.ok demoPage

/-- The rejection message Puppeteer produces once the browser process
has crashed or been closed. -/
def sessionClosedMsg : JStr :=
  "Session closed. Most likely the page has been closed.".data

/-- A page whose browser process has crashed after the initial
navigation: every element-level primitive rejects. -/
def crashedPage : Page where
  find := fun _ => Except.error sessionClosedMsg
  goto := fun _ => Except.ok ()
  setViewport := Except.ok ()

/-- Browser handle for the crashed-page fixture. -/
def crashedBrowser : Browser where
  newPage := Except.ok crashedPage

/-- A page whose initial navigation fails (network failure). -/
def navFailPage : Page where
  find := fun _ => Except.ok none
  goto := fun _ => Except.error "net::ERR_CONNECTION_REFUSED".data
  setViewport := Except.ok ()

/-- Browser handle for the failed-navigation fixture. -/
def navFailBrowser : Browser where
  newPage := Except.ok navFailPage

/-- Portal URL fixture. -/
def demoUrl : JStr := "http://portal.example".data

/-- A `click` scenario on the resolving selector. -/
def clickBtnScn : TestScenario :=
  ⟨"click".data, "#btn".data, "button responds".data, "click the button".data⟩

/-- The `check_style` scenario of the spec's worked example. -/
def checkStyleScn : TestScenario :=
  ⟨"check_style".data, "#btn".data, "background-color should be yellow".data,
    "check background".data⟩

/-- A `check_text` scenario whose target does not resolve. -/
def missingTextScn : TestScenario :=
  ⟨"check_text".data, "#missing".data, "text should be Hello".data,
    "check missing element".data⟩

/-- A scenario with an action outside the supported set. -/
def dragDropScn : TestScenario :=
  ⟨"drag_drop".data, "#btn".data, "item moved".data, "drag the item".data⟩

/-- A `fill_input` scenario whose expectation does not match the
`fill with "<value>"` grammar. -/
def fillNoMatchScn : TestScenario :=
  ⟨"fill_input".data, "#btn".data, "oops".data, "fill the field".data⟩

/-- A `check_style` scenario whose expectation does not match the
`<property> should be <value>` grammar. -/
def badStyleScn : TestScenario :=
  ⟨"check_style".data, "#btn".data, "gibberish".data, "bad expectation".data⟩

/-- A `check_text` scenario with a quoted expected value. -/
def quotedTextScn : TestScenario :=
  ⟨"check_text".data, "#btn".data, "text should contain \"Hello\"".data,
    "check text".data⟩

example : executeScenario demoPage checkStyleScn =
    ⟨checkStyleScn, true, none, some "rgb(255, 255, 0)".data, none⟩ := by decide
example : executeScenario demoPage missingTextScn =
    ⟨missingTextScn, false, some (notFoundMsg "#missing".data), none, none⟩ := by decide
example : executeScenario demoPage clickBtnScn =
    ⟨clickBtnScn, true, none, none, none⟩ := by decide
example : executeScenario demoPage dragDropScn =
    ⟨dragDropScn, false, some (unknownActionMsg "drag_drop".data), none, none⟩ := by decide
example : (runTests (Except.ok demoBrowser) demoUrl [missingTextScn, clickBtnScn, clickBtnScn]).result =
    Except.ok [⟨missingTextScn, false, some (notFoundMsg "#missing".data), none, none⟩,
      ⟨clickBtnScn, true, none, none, none⟩, ⟨clickBtnScn, true, none, none, none⟩] := by decide

set_option maxHeartbeats 1000000 in
theorem executeScenarioBody_ok_scenario (page : Page) (s : TestScenario) (r : TestResult)
    (h : executeScenarioBody page s = Except.ok r) : r.scenario = s := by
  unfold executeScenarioBody at h
  repeat' split at h
  all_goals first
    | exact Except.noConfusion h
    | (cases h; rfl)

theorem executeScenario_scenario (page : Page) (s : TestScenario) :
    (executeScenario page s).scenario = s := by
  unfold executeScenario
  split
  · exact executeScenarioBody_ok_scenario page s _ (by assumption)
  · rfl

theorem runTests_setup_ok (b : Browser) (page : Page) (url : JStr)
    (scns : List TestScenario)
    (hp : b.newPage = Except.ok page) (hv : page.setViewport = Except.ok ())
    (hg : page.goto url = Except.ok ()) :
    runTests (Except.ok b) url scns =
      { result := Except.ok (scns.map (executeScenario page)), closes := 1 } := by
  simp only [runTests, hp, hv, hg]

theorem runTests_ok_inv (launch : Except JStr Browser) (url : JStr)
    (scns : List TestScenario) (rs : List TestResult)
    (h : (runTests launch url scns).result = Except.ok rs) :
    ∃ page : Page, rs = scns.map (executeScenario page) := by
  unfold runTests at h
  rcases launch with e | b
  · simp at h
  · dsimp only at h
    rcases hpg : b.newPage with e | page <;> rw [hpg] at h <;> dsimp only at h
    · simp at h
    · rcases hv : page.setViewport with e | u <;> rw [hv] at h <;> dsimp only at h
      · simp at h
      · rcases hg : page.goto url with e | u2 <;> rw [hg] at h <;> dsimp only at h
        · simp at h
        · exact ⟨page, by simp at h; exact h.symm⟩

theorem map_scenario_of_map_executeScenario (page : Page) (scns : List TestScenario) :
    (scns.map (executeScenario page)).map TestResult.scenario = scns := by
  induction scns with
  | nil => rfl
  | cons a t ih => simp only [List.map_cons, executeScenario_scenario, ih]

/-- C1: for every run of `runTests` that does not abort fatally, the
result sequence has the same length as the input scenario list and the
i-th result's `scenario` field is the i-th input scenario (stated as:
mapping `scenario` over the results gives back the input list). -/
theorem C1_run_preserves_length_and_order (launch : Except JStr Browser)
    (url : JStr) (scns : List TestScenario) (rs : List TestResult)
    (h : (runTests launch url scns).result = Except.ok rs) :
    rs.map TestResult.scenario = scns ∧ rs.length = scns.length := by
  obtain ⟨page, hrs⟩ := runTests_ok_inv launch url scns rs h
  subst hrs
  exact ⟨map_scenario_of_map_executeScenario page scns, by simp⟩

/-- C1 witness: a concrete non-fatal run over two scenarios. -/
theorem C1_run_preserves_length_and_order_witness :
    (([missingTextScn, clickBtnScn].map (executeScenario demoPage)).map TestResult.scenario =
      [missingTextScn, clickBtnScn]) ∧
    ([missingTextScn, clickBtnScn].map (executeScenario demoPage)).length =
      ([missingTextScn, clickBtnScn] : List TestScenario).length :=
  C1_run_preserves_length_and_order (Except.ok demoBrowser) demoUrl
    [missingTextScn, clickBtnScn]
    ([missingTextScn, clickBtnScn].map (executeScenario demoPage)) (by decide)

/-- C2: whenever the browser was launched, `browser.close()` runs
exactly once, on every exit path of the run (returned result sequence or
fatal abort alike, over all sessions, URLs and scenario lists). -/
theorem C2_browser_closed_exactly_once (launch : Except JStr Browser)
    (b : Browser) (url : JStr) (scns : List TestScenario)
    (h : launch = Except.ok b) :
    (runTests launch url scns).closes = 1 := by
  subst h; rfl

/-- C2 witness: concrete launched runs, one returning results and one
aborting fatally, each closing the browser once. -/
theorem C2_browser_closed_exactly_once_witness :
    (runTests (Except.ok demoBrowser) demoUrl [clickBtnScn]).closes = 1 ∧
    (runTests (Except.ok navFailBrowser) demoUrl [clickBtnScn]).closes = 1 :=
  ⟨C2_browser_closed_exactly_once (Except.ok demoBrowser) demoBrowser demoUrl [clickBtnScn] rfl,
   C2_browser_closed_exactly_once (Except.ok navFailBrowser) navFailBrowser demoUrl [clickBtnScn] rfl⟩

/-- C3: every scenario-local failure (element not found, unsupported
action, expectation parse failure, or an exception thrown inside a
handler) is recovered into a failed `TestResult` with a diagnostic for
that scenario only, and subsequent scenarios still run: (i) any thrown
handler error yields a failed result carrying the message; (ii) for
scenarios `[A, B, C]` where `A`'s target does not resolve and `B`, `C`
succeed, the run returns `[fail, pass, pass]` in order. -/
theorem C3_scenario_failures_recovered_and_isolated :
    (∀ (page : Page) (s : TestScenario) (m : JStr),
      executeScenarioBody page s = Except.error m →
      executeScenario page s = ⟨s, false, some m, none, none⟩) ∧
    (∀ (b : Browser) (page : Page) (url : JStr) (A B C : TestScenario),
      b.newPage = Except.ok page → page.setViewport = Except.ok () →
      page.goto url = Except.ok () →
      jsToLower A.action = "check_text".data →
      page.find A.target = Except.ok none →
      (executeScenario page B).passed = true →
      (executeScenario page C).passed = true →
      (runTests (Except.ok b) url [A, B, C]).result =
        Except.ok [executeScenario page A, executeScenario page B, executeScenario page C] ∧
      (executeScenario page A).passed = false ∧
      (executeScenario page A).error = some (notFoundMsg A.target) ∧
      (executeScenario page B).passed = true ∧
      (executeScenario page C).passed = true) := by
  constructor
  · intro page s m h
    unfold executeScenario
    rw [h]
  · intro b page url A B C hp hv hg hact hfind hB hC
    have hA : executeScenario page A = ⟨A, false, some (notFoundMsg A.target), none, none⟩ := by
      unfold executeScenario executeScenarioBody
      rw [hact]
      simp only [hfind]
      rfl
    refine ⟨?_, by rw [hA], by rw [hA], hB, hC⟩
    rw [runTests_setup_ok b page url [A, B, C] hp hv hg]
    rfl

/-- C3 witness: a thrown handler error on a crashed page is recovered,
and a concrete `[missing, click, click]` run yields fail-pass-pass. -/
theorem C3_scenario_failures_recovered_and_isolated_witness :
    (executeScenario crashedPage clickBtnScn =
      ⟨clickBtnScn, false, some sessionClosedMsg, none, none⟩) ∧
    ((runTests (Except.ok demoBrowser) demoUrl [missingTextScn, clickBtnScn, clickBtnScn]).result =
      Except.ok [executeScenario demoPage missingTextScn, executeScenario demoPage clickBtnScn,
        executeScenario demoPage clickBtnScn] ∧
      (executeScenario demoPage missingTextScn).passed = false ∧
      (executeScenario demoPage missingTextScn).error = some (notFoundMsg "#missing".data) ∧
      (executeScenario demoPage clickBtnScn).passed = true ∧
      (executeScenario demoPage clickBtnScn).passed = true) :=
  ⟨C3_scenario_failures_recovered_and_isolated.1 crashedPage clickBtnScn sessionClosedMsg rfl,
   C3_scenario_failures_recovered_and_isolated.2 demoBrowser demoPage demoUrl
     missingTextScn clickBtnScn clickBtnScn rfl rfl rfl (by decide) rfl
     (by decide) (by decide)⟩

/-- C4 counterexample: a run in which the browser process crashes after
the initial portal navigation (every element-level primitive rejects
with Puppeteer's session-closed error).  Contrary to the claim, the run
does not abort and no fatal error is propagated: `runTests` returns a
full `TestResult` sequence, because the scenario-level `catch` in
`executeScenario` (source lines 208-214) swallows the crash before the
run-level `catch` can see it. -/
theorem C4_counterexample_mid_run_crash_returns_results :
    (runTests (Except.ok crashedBrowser) demoUrl [clickBtnScn]).result =
      Except.ok [⟨clickBtnScn, false, some sessionClosedMsg, none, none⟩] ∧
    (runTests (Except.ok crashedBrowser) demoUrl [clickBtnScn]).result ≠
      Except.error (fatalMsg sessionClosedMsg) := by
  exact ⟨by decide, by decide⟩

/-- C4, amended: only a rendering-process failure during session setup
(launch, page creation, viewport) or the initial portal navigation
aborts the run, propagating a single wrapped fatal error with no
`TestResult` sequence; a failure thrown once a scenario handler is
executing is caught by the per-scenario recovery, becomes that
scenario's failed `TestResult`, and the run returns a full result
sequence. -/
theorem C4_fatal_abort_only_during_setup :
    (∀ (url : JStr) (scns : List TestScenario) (e : JStr),
      (runTests (Except.error e) url scns).result = Except.error (fatalMsg e) ∧
      (runTests (Except.error e) url scns).closes = 0) ∧
    (∀ (b : Browser) (page : Page) (url : JStr) (scns : List TestScenario) (e : JStr),
      b.newPage = Except.ok page → page.setViewport = Except.ok () →
      page.goto url = Except.error e →
      (runTests (Except.ok b) url scns).result = Except.error (fatalMsg e) ∧
      (runTests (Except.ok b) url scns).closes = 1) ∧
    (∀ (page : Page) (s : TestScenario) (m : JStr),
      executeScenarioBody page s = Except.error m →
      executeScenario page s = ⟨s, false, some m, none, none⟩) ∧
    (∀ (b : Browser) (page : Page) (url : JStr) (scns : List TestScenario),
      b.newPage = Except.ok page → page.setViewport = Except.ok () →
      page.goto url = Except.ok () →
      (runTests (Except.ok b) url scns).result =
        Except.ok (scns.map (executeScenario page))) := by
  refine ⟨fun url scns e => ⟨rfl, rfl⟩, ?_, ?_, ?_⟩
  · intro b page url scns e hp hv hg
    constructor
    · unfold runTests
      dsimp only
      rw [hp]
      dsimp only
      rw [hv]
      dsimp only
      rw [hg]
    · rfl
  · intro page s m h
    unfold executeScenario
    rw [h]
  · intro b page url scns hp hv hg
    rw [runTests_setup_ok b page url scns hp hv hg]

/-- C4 witness: fatal abort on failed initial navigation and on failed
launch; local recovery of a thrown handler error; full results on a
healthy setup. -/
theorem C4_fatal_abort_only_during_setup_witness :
    ((runTests (Except.error "spawn ENOENT".data) demoUrl [clickBtnScn]).result =
      Except.error (fatalMsg "spawn ENOENT".data) ∧
     (runTests (Except.error "spawn ENOENT".data) demoUrl [clickBtnScn]).closes = 0) ∧
    ((runTests (Except.ok navFailBrowser) demoUrl [clickBtnScn]).result =
      Except.error (fatalMsg "net::ERR_CONNECTION_REFUSED".data) ∧
     (runTests (Except.ok navFailBrowser) demoUrl [clickBtnScn]).closes = 1) ∧
    executeScenario crashedPage quotedTextScn =
      ⟨quotedTextScn, false, some sessionClosedMsg, none, none⟩ ∧
    (runTests (Except.ok demoBrowser) demoUrl [clickBtnScn]).result =
      Except.ok ([clickBtnScn].map (executeScenario demoPage)) :=
  ⟨C4_fatal_abort_only_during_setup.1 demoUrl [clickBtnScn] "spawn ENOENT".data,
   C4_fatal_abort_only_during_setup.2.1 navFailBrowser navFailPage demoUrl [clickBtnScn]
     "net::ERR_CONNECTION_REFUSED".data rfl rfl rfl,
   C4_fatal_abort_only_during_setup.2.2.1 crashedPage quotedTextScn sessionClosedMsg rfl,
   C4_fatal_abort_only_during_setup.2.2.2 demoBrowser demoPage demoUrl [clickBtnScn]
     rfl rfl rfl⟩

/-- C5: for every `check_style` scenario whose target resolves, the
`(property, expectedValue)` pair is extracted by the
`<property> should be <value>` grammar (case-insensitive verb), the
element's computed value for the property is read, both sides pass
through the color normalizer, and the scenario passes iff the two
normalized forms are equal; concretely, `background-color should be
yellow` against a computed `rgb(255, 255, 0)` passes with
`actualValue = "rgb(255, 255, 0)"`. -/
theorem C5_check_style_semantics :
    (∀ (page : Page) (s : TestScenario) (el : Elem)
        (property expectedValue actualValue : JStr),
      jsToLower s.action = "check_style".data →
      page.find s.target = Except.ok (some el) →
      styleMatch s.expectedResult = some (property, expectedValue) →
      el.styleOf (jsTrim property) = Except.ok actualValue →
      ((executeScenario page s).passed = true ↔
        normalizeColorValue (jsTrim actualValue) =
          normalizeColorValue (jsTrim expectedValue)) ∧
      (executeScenario page s).actualValue = some (jsTrim actualValue)) ∧
    styleMatch "background-color should be yellow".data =
      some ("background-color".data, "yellow".data) ∧
    executeScenario demoPage checkStyleScn =
      ⟨checkStyleScn, true, none, some "rgb(255, 255, 0)".data, none⟩ := by
  refine ⟨?_, by decide, by decide⟩
  intro page s el property expectedValue actualValue hact hfind hmatch hstyle
  unfold executeScenario executeScenarioBody
  rw [hact]
  dsimp only
  rw [hfind]
  dsimp only
  rw [hmatch]
  dsimp only
  rw [hstyle]
  dsimp only
  exact ⟨decide_eq_true_iff, rfl⟩

/-- C5 witness: the spec's worked example instantiating the general
statement. -/
theorem C5_check_style_semantics_witness :
    ((executeScenario demoPage checkStyleScn).passed = true ↔
      normalizeColorValue (jsTrim "rgb(255, 255, 0)".data) =
        normalizeColorValue (jsTrim "yellow".data)) ∧
    (executeScenario demoPage checkStyleScn).actualValue =
      some (jsTrim "rgb(255, 255, 0)".data) :=
  C5_check_style_semantics.1 demoPage checkStyleScn okBtnElem "background-color".data
    "yellow".data "rgb(255, 255, 0)".data (by decide) rfl (by decide) rfl

/-- C6 counterexample: a `fill_input` scenario whose `expectedResult`
(`oops`) does not match the documented `fill with "<value>"` grammar is
not converted into a failed result echoing the pattern; the handler
falls back to typing the whole raw string and reports `passed = true`
with no diagnostic, because `String.replace` leaves a non-matching
string unchanged (source line 192). -/
theorem C6_counterexample_fill_mismatch_passes :
    replaceSearch fillMatchAt fillNoMatchScn.expectedResult = none ∧
    executeScenario demoPage fillNoMatchScn = ⟨fillNoMatchScn, true, none, none, none⟩ := by
  exact ⟨by decide, by decide⟩

/-- C6, amended: only `check_style` fails closed on a grammar mismatch,
producing a failed result whose diagnostic echoes the required pattern;
for `check_text`, `fill_input` and `navigate` a non-matching
`expectedResult` is passed through unchanged (the raw string is used as
the literal/value/URL) and no parse-failure result is produced; in no
case is the run aborted. -/
theorem C6_only_check_style_fails_closed :
    (∀ (page : Page) (s : TestScenario) (el : Elem),
      jsToLower s.action = "check_style".data →
      page.find s.target = Except.ok (some el) →
      styleMatch s.expectedResult = none →
      executeScenario page s = ⟨s, false, some styleParseMsg, none, none⟩) ∧
    (∀ er : JStr, replaceSearch textMatchAt er = none → textExtract er = er) ∧
    (∀ er : JStr, replaceSearch fillMatchAt er = none → fillExtract er = er) ∧
    (∀ er : JStr, replaceSearch navMatchAt er = none → navExtract er = er) ∧
    (∀ (b : Browser) (page : Page) (url : JStr) (scns : List TestScenario),
      b.newPage = Except.ok page → page.setViewport = Except.ok () →
      page.goto url = Except.ok () →
      (runTests (Except.ok b) url scns).result =
        Except.ok (scns.map (executeScenario page))) := by
  refine ⟨?_, ?_, ?_, ?_, ?_⟩
  · intro page s el hact hfind hmatch
    unfold executeScenario executeScenarioBody
    rw [hact]
    dsimp only
    rw [hfind]
    dsimp only
    rw [hmatch]
    rfl
  · intro er h
    simp only [textExtract, jsReplace1, h]
  · intro er h
    simp only [fillExtract, jsReplace1, h]
  · intro er h
    simp only [navExtract, jsReplace1, h]
  · intro b page url scns hp hv hg
    rw [runTests_setup_ok b page url scns hp hv hg]

/-- C6 witness: concrete instances of each conjunct. -/
theorem C6_only_check_style_fails_closed_witness :
    executeScenario demoPage badStyleScn =
      ⟨badStyleScn, false, some styleParseMsg, none, none⟩ ∧
    textExtract "oops".data = "oops".data ∧
    fillExtract "oops".data = "oops".data ∧
    navExtract "oops".data = "oops".data ∧
    (runTests (Except.ok demoBrowser) demoUrl [badStyleScn]).result =
      Except.ok ([badStyleScn].map (executeScenario demoPage)) :=
  ⟨C6_only_check_style_fails_closed.1 demoPage badStyleScn okBtnElem (by decide) rfl (by decide),
   C6_only_check_style_fails_closed.2.1 "oops".data (by decide),
   C6_only_check_style_fails_closed.2.2.1 "oops".data (by decide),
   C6_only_check_style_fails_closed.2.2.2.1 "oops".data (by decide),
   C6_only_check_style_fails_closed.2.2.2.2 demoBrowser demoPage demoUrl [badStyleScn]
     rfl rfl rfl⟩

/-- C7 counterexample: for `text should contain "Hello"` the code's
extraction keeps the trailing double quote in the literal (the lazy
capture is a single character and `replace` reattaches the tail), so an
element whose text is exactly `Hello` fails the scenario, contradicting
the claim that the surrounding quotes are not part of the literal. -/
theorem C7_counterexample_trailing_quote_kept :
    textExtract "text should contain \"Hello\"".data = "Hello\"".data ∧
    textExtract "text should contain \"Hello\"".data ≠ "Hello".data ∧
    executeScenario demoPage quotedTextScn =
      ⟨quotedTextScn, false, some (textFailMsg "Hello\"".data (some "Hello".data)),
        some "Hello".data, none⟩ := by
  exact ⟨by decide, by decide, by decide⟩

/-- C7, amended: for every `check_text` scenario whose target resolves
with non-null text, the expected literal is the result of replacing the
first match of `text should (contain|be) "?(.+?)"?` by its capture — an
optional leading quote is stripped, but for quoted multi-character
values the trailing quote remains part of the literal (unquoted values
are recovered whole) — and the scenario passes iff the element's text
equals the literal or contains it as a substring. -/
theorem C7_check_text_literal_semantics :
    (∀ (page : Page) (s : TestScenario) (el : Elem) (t : JStr),
      jsToLower s.action = "check_text".data →
      page.find s.target = Except.ok (some el) →
      el.textContent = Except.ok (some t) →
      ((executeScenario page s).passed = true ↔
        (jsIncludes t (textExtract s.expectedResult) = true ∨
          t = textExtract s.expectedResult)) ∧
      (executeScenario page s).actualValue = some t) ∧
    textExtract "text should contain \"Hello\"".data = "Hello\"".data ∧
    textExtract "text should be Hello".data = "Hello".data := by
  refine ⟨?_, by decide, by decide⟩
  intro page s el t hact hfind htext
  unfold executeScenario executeScenarioBody
  rw [hact]
  dsimp only
  rw [hfind]
  dsimp only
  rw [htext]
  dsimp only
  constructor
  · simp
  · rfl

/-- C7 witness: the quoted worked example instantiating the general
statement. -/
theorem C7_check_text_literal_semantics_witness :
    ((executeScenario demoPage quotedTextScn).passed = true ↔
      (jsIncludes "Hello".data (textExtract quotedTextScn.expectedResult) = true ∨
        "Hello".data = textExtract quotedTextScn.expectedResult)) ∧
    (executeScenario demoPage quotedTextScn).actualValue = some "Hello".data :=
  C7_check_text_literal_semantics.1 demoPage quotedTextScn okBtnElem "Hello".data
    (by decide) rfl rfl

/-- C9: the five representations `yellow`, `#FFFF00`, `#ff0`,
`rgb(255,255,0)` and `rgba(255,255,0,0.5)` (alpha discarded) all
normalize to the canonical string `rgb(255, 255, 0)`. -/
theorem C9_normalizer_equivalence_class :
    normalizeColorValue "yellow".data = "rgb(255, 255, 0)".data ∧
    normalizeColorValue "#FFFF00".data = "rgb(255, 255, 0)".data ∧
    normalizeColorValue "#ff0".data = "rgb(255, 255, 0)".data ∧
    normalizeColorValue "rgb(255,255,0)".data = "rgb(255, 255, 0)".data ∧
    normalizeColorValue "rgba(255,255,0,0.5)".data = "rgb(255, 255, 0)".data := by
  exact ⟨by decide, by decide, by decide, by decide, by decide⟩

/-- The closed action set of the dispatcher (source switch cases). -/
def supportedActions : List JStr :=
  ["navigate".data, "click".data, "hover".data, "fill_input".data,
   "check_style".data, "check_text".data, "check_visibility".data]

/-- C10: a scenario whose lowercased action lies outside the closed
action set yields `passed = false` with an error naming the raw action,
and a run with a healthy setup still processes every scenario (the
result list is the full map over the inputs). -/
theorem C10_unknown_action_fails_and_run_continues :
    (∀ (page : Page) (s : TestScenario),
      jsToLower s.action ∉ supportedActions →
      executeScenario page s = ⟨s, false, some (unknownActionMsg s.action), none, none⟩) ∧
    (∀ (b : Browser) (page : Page) (url : JStr) (scns : List TestScenario),
      b.newPage = Except.ok page → page.setViewport = Except.ok () →
      page.goto url = Except.ok () →
      (runTests (Except.ok b) url scns).result =
        Except.ok (scns.map (executeScenario page)) ∧
      (scns.map (executeScenario page)).length = scns.length) := by
  constructor
  · intro page s hmem
    simp only [supportedActions, List.mem_cons, List.not_mem_nil, or_false, not_or] at hmem
    obtain ⟨hnav, hclick, hhover, hfill, hstyle, htext, hvis⟩ := hmem
    unfold executeScenario executeScenarioBody
    rw [if_neg hstyle, if_neg hclick, if_neg htext, if_neg hvis, if_neg hnav,
      if_neg hhover, if_neg hfill]
  · intro b page url scns hp hv hg
    rw [runTests_setup_ok b page url scns hp hv hg]
    exact ⟨rfl, by simp⟩

/-- C10 witness: the `drag_drop` scenario of the spec, inside a run that
also processes a subsequent scenario. -/
theorem C10_unknown_action_fails_and_run_continues_witness :
    executeScenario demoPage dragDropScn =
      ⟨dragDropScn, false, some (unknownActionMsg "drag_drop".data), none, none⟩ ∧
    ((runTests (Except.ok demoBrowser) demoUrl [dragDropScn, clickBtnScn]).result =
      Except.ok ([dragDropScn, clickBtnScn].map (executeScenario demoPage)) ∧
      ([dragDropScn, clickBtnScn].map (executeScenario demoPage)).length =
        ([dragDropScn, clickBtnScn] : List TestScenario).length) :=
  ⟨C10_unknown_action_fails_and_run_continues.1 demoPage dragDropScn (by decide),
   C10_unknown_action_fails_and_run_continues.2 demoBrowser demoPage demoUrl
     [dragDropScn, clickBtnScn] rfl rfl rfl⟩

theorem char_toNat_ofNat (n : Nat) (h : n < 55296) : (Char.ofNat n).toNat = n := by
  have hv : n.isValidChar := Or.inl h
  simp only [Char.ofNat, hv, dite_true, Char.ofNatAux, Char.toNat, UInt32.toNat,
    BitVec.toNat_ofNatLt]

theorem lowCh_lowCh (c : Char) : lowCh (lowCh c) = lowCh c := by
  unfold lowCh
  by_cases h : 65 ≤ c.toNat ∧ c.toNat ≤ 90
  · rw [if_pos h]
    have h2 : (Char.ofNat (c.toNat + 32)).toNat = c.toNat + 32 :=
      char_toNat_ofNat _ (by omega)
    rw [if_neg (by rw [h2]; omega)]
  · rw [if_neg h, if_neg h]

theorem jsToLower_fixed : ∀ l : JStr, (∀ c ∈ l, lowCh c = c) → jsToLower l = l
  | [], _ => rfl
  | a :: t, h => by
    have ht := jsToLower_fixed t (fun c hc => h c (List.mem_cons_of_mem a hc))
    simp only [jsToLower, List.map_cons] at ht ⊢
    rw [h a (List.mem_cons_self a t), ht]

theorem jsToLower_of_jsToLower (l : JStr) : jsToLower (jsToLower l) = jsToLower l := by
  refine jsToLower_fixed _ (fun c hc => ?_)
  obtain ⟨c', _, rfl⟩ := List.mem_map.mp hc
  exact lowCh_lowCh c'

theorem dropWhile_dropWhile (p : Char → Bool) (l : JStr) :
    List.dropWhile p (List.dropWhile p l) = List.dropWhile p l := by
  induction l with
  | nil => rfl
  | cons a t ih =>
    by_cases h : p a
    · simp [List.dropWhile_cons, h, ih]
    · simp [List.dropWhile_cons, h]

theorem jsTrimEnd_idem (l : JStr) : jsTrimEnd (jsTrimEnd l) = jsTrimEnd l := by
  unfold jsTrimEnd
  rw [List.reverse_reverse, dropWhile_dropWhile]

theorem dropWhile_head_false (p : Char → Bool) :
    ∀ (l : JStr) (c : Char) (t : JStr), List.dropWhile p l = c :: t → p c = false := by
  intro l
  induction l with
  | nil => intro c t h; cases h
  | cons a u ih =>
    intro c t h
    by_cases ha : p a
    · rw [List.dropWhile_cons_of_pos ha] at h
      exact ih c t h
    · rw [List.dropWhile_cons_of_neg ha] at h
      cases h
      simpa using ha

theorem dropWhile_append_last_keep (p : Char → Bool) (z : Char) (hz : p z = false) :
    ∀ l : JStr, ∃ u : JStr, List.dropWhile p (l ++ [z]) = u ++ [z] := by
  intro l
  induction l with
  | nil => exact ⟨[], by simp [List.dropWhile_cons, hz]⟩
  | cons a t ih =>
    by_cases ha : p a
    · obtain ⟨u, hu⟩ := ih
      exact ⟨u, by rw [List.cons_append, List.dropWhile_cons_of_pos ha, hu]⟩
    · exact ⟨a :: t, by rw [List.cons_append, List.dropWhile_cons_of_neg ha]⟩

theorem jsTrim_idem (l : JStr) : jsTrim (jsTrim l) = jsTrim l := by
  unfold jsTrim
  rcases hm : List.dropWhile isJsSpace l with _ | ⟨c, t⟩
  · rfl
  · have hc : isJsSpace c = false := dropWhile_head_false isJsSpace l c t hm
    have hrev : ∃ u, jsTrimEnd (c :: t) = c :: u := by
      unfold jsTrimEnd
      obtain ⟨u, hu⟩ := dropWhile_append_last_keep isJsSpace c hc t.reverse
      rw [List.reverse_cons, hu, List.reverse_append]
      exact ⟨u.reverse, rfl⟩
    obtain ⟨u, hu⟩ := hrev
    rw [hu]
    rw [List.dropWhile_cons_of_neg (by simp [hc])]
    rw [← hu, jsTrimEnd_idem]

theorem mem_of_mem_jsTrim {c : Char} {l : JStr} (h : c ∈ jsTrim l) : c ∈ l := by
  unfold jsTrim jsTrimEnd at h
  have h1 := List.mem_reverse.mp h
  have h2 := (List.dropWhile_sublist _).mem h1
  have h3 := List.mem_reverse.mp h2
  exact (List.dropWhile_sublist _).mem h3

theorem lowtrim_stable (x : JStr) :
    jsTrim (jsToLower (jsTrim (jsToLower x))) = jsTrim (jsToLower x) := by
  have h1 : jsToLower (jsTrim (jsToLower x)) = jsTrim (jsToLower x) := by
    refine jsToLower_fixed _ (fun c hc => ?_)
    have : c ∈ jsToLower x := mem_of_mem_jsTrim hc
    obtain ⟨c', _, rfl⟩ := List.mem_map.mp this
    exact lowCh_lowCh c'
  rw [h1, jsTrim_idem]

theorem digit_lowCh_fixed {c : Char} (h : isDigitCh c = true) : lowCh c = c := by
  simp only [isDigitCh, Bool.and_eq_true, decide_eq_true_eq] at h
  unfold lowCh
  rw [if_neg (by omega)]

theorem digit_not_space {c : Char} (h : isDigitCh c = true) : isJsSpace c = false := by
  simp only [isDigitCh, Bool.and_eq_true, decide_eq_true_eq] at h
  simp only [isJsSpace, Bool.or_eq_false_iff, decide_eq_false_iff_not]
  omega

theorem digit_not_comma {c : Char} (h : isDigitCh c = true) : c ≠ ',' := by
  simp only [isDigitCh, Bool.and_eq_true, decide_eq_true_eq] at h
  intro hc
  subst hc
  simp at h

theorem mkRgb_cons (a b c : JStr) :
    mkRgb a b c =
      'r' :: 'g' :: 'b' :: '(' :: (a ++ ',' :: ' ' :: (b ++ ',' :: ' ' :: (c ++ [')']))) := by
  simp [mkRgb]

theorem mem_mkRgb {ch : Char} {a b c : JStr} (h : ch ∈ mkRgb a b c) :
    ch ∈ a ∨ ch ∈ b ∨ ch ∈ c ∨ ch ∈ ['r', 'g', 'b', '(', ',', ' ', ')'] := by
  rw [mkRgb_cons] at h
  simp only [List.mem_cons, List.mem_append, List.not_mem_nil, or_false] at h ⊢
  tauto

theorem jsToLower_mkRgb (a b c : JStr)
    (ha : ∀ ch ∈ a, isDigitCh ch = true) (hb : ∀ ch ∈ b, isDigitCh ch = true)
    (hc : ∀ ch ∈ c, isDigitCh ch = true) :
    jsToLower (mkRgb a b c) = mkRgb a b c := by
  refine jsToLower_fixed _ (fun ch hch => ?_)
  rcases mem_mkRgb hch with h | h | h | h
  · exact digit_lowCh_fixed (ha ch h)
  · exact digit_lowCh_fixed (hb ch h)
  · exact digit_lowCh_fixed (hc ch h)
  · fin_cases h <;> decide

theorem jsTrimEnd_append_nonspace (z : Char) (hz : isJsSpace z = false) (l : JStr) :
    jsTrimEnd (l ++ [z]) = l ++ [z] := by
  unfold jsTrimEnd
  have h1 : (l ++ [z]).reverse = z :: l.reverse := by simp
  rw [h1, List.dropWhile_cons_of_neg (by simp [hz])]
  simp

theorem jsTrim_mkRgb (a b c : JStr) : jsTrim (mkRgb a b c) = mkRgb a b c := by
  have hshape : mkRgb a b c =
      (['r', 'g', 'b', '('] ++ a ++ [',', ' '] ++ b ++ [',', ' '] ++ c) ++ [')'] := by
    simp [mkRgb, List.append_assoc]
  unfold jsTrim
  rw [show List.dropWhile isJsSpace (mkRgb a b c) = mkRgb a b c from by
    rw [mkRgb_cons]
    rw [List.dropWhile_cons_of_neg (by decide)]]
  rw [hshape, jsTrimEnd_append_nonspace ')' (by decide)]

theorem lookupColor_mkRgb (a b c : JStr) : lookupColor (mkRgb a b c) = none := rfl

theorem rgbaPre_mkRgb (a b c : JStr) :
    List.isPrefixOf ['r', 'g', 'b', 'a'] (mkRgb a b c) = false := rfl

theorem rgbPre_mkRgb (a b c : JStr) :
    List.isPrefixOf ['r', 'g', 'b'] (mkRgb a b c) = true := rfl

theorem takeWhile_append_stop (p : Char → Bool) :
    ∀ (d : JStr) (x : Char) (r : JStr), (∀ ch ∈ d, p ch = true) → p x = false →
      List.takeWhile p (d ++ x :: r) = d ∧ List.dropWhile p (d ++ x :: r) = x :: r := by
  intro d
  induction d with
  | nil =>
    intro x r _ hx
    simp [List.takeWhile_cons, List.dropWhile_cons, hx]
  | cons a t ih =>
    intro x r hall hx
    have ha : p a = true := hall a (List.mem_cons_self a t)
    obtain ⟨h1, h2⟩ := ih x r (fun ch hch => hall ch (List.mem_cons_of_mem a hch)) hx
    constructor
    · rw [List.cons_append, List.takeWhile_cons_of_pos ha, h1]
    · rw [List.cons_append, List.dropWhile_cons_of_pos ha, h2]

theorem plusSplits_head (p : Char → Bool) (d : JStr) (x : Char) (r : JStr)
    (hd : d ≠ []) (hall : ∀ ch ∈ d, p ch = true) (hx : p x = false) :
    ∃ tl, plusSplits p (d ++ x :: r) = (d, x :: r) :: tl := by
  obtain ⟨h1, h2⟩ := takeWhile_append_stop p d x r hall hx
  rcases d with _ | ⟨a, t⟩
  · exact absurd rfl hd
  refine ⟨(List.map Nat.succ (List.range t.length)).map
    (fun i => (List.take (t.length + 1 - i) (a :: t),
      List.drop (t.length + 1 - i) (a :: t) ++ x :: r)), ?_⟩
  simp only [plusSplits]
  rw [h1, h2]
  simp only [List.length_cons, List.range_succ_eq_map, List.map_cons, Nat.sub_zero,
    List.take_succ_cons, List.take_length, List.drop_succ_cons, List.drop_length,
    List.nil_append]

theorem plusSplits_head_cons (p : Char → Bool) (a0 : Char) (a' : JStr) (x : Char) (r : JStr)
    (hall : ∀ ch ∈ a0 :: a', p ch = true) (hx : p x = false) :
    ∃ tl, plusSplits p (a0 :: (a' ++ x :: r)) = (a0 :: a', x :: r) :: tl := by
  have h := plusSplits_head p (a0 :: a') x r (by simp) hall hx
  simpa [List.cons_append] using h

theorem spacesSplits_one (x : Char) (r : JStr) (hx : isJsSpace x = false) :
    spacesSplits (' ' :: x :: r) = [x :: r, ' ' :: x :: r] := by
  unfold spacesSplits
  rw [show List.takeWhile isJsSpace (' ' :: x :: r) = [' '] from by
    rw [List.takeWhile_cons_of_pos (by decide), List.takeWhile_cons_of_neg (by simp [hx])]]
  rfl

theorem sepOptCommaSpaces_head (x : Char) (r : JStr) (hx : isJsSpace x = false) :
    ∃ tl, sepOptCommaSpaces (',' :: ' ' :: x :: r) = (x :: r) :: tl := by
  rw [show sepOptCommaSpaces (',' :: ' ' :: x :: r) =
    spacesSplits (' ' :: x :: r) ++ spacesSplits (',' :: ' ' :: x :: r) from rfl]
  rw [spacesSplits_one x r hx]
  exact ⟨_, rfl⟩

theorem firstSome_cons_some {α β : Type} (f : α → Option β) (a : α) (l : List α)
    (b : β) (h : f a = some b) : firstSome f (a :: l) = some b := by
  unfold firstSome
  rw [h]

theorem rgbGroupsAt_canonical (a b c : JStr)
    (ha : a ≠ []) (had : ∀ ch ∈ a, isDigitCh ch = true)
    (hb : b ≠ []) (hbd : ∀ ch ∈ b, isDigitCh ch = true)
    (hc : c ≠ []) (hcd : ∀ ch ∈ c, isDigitCh ch = true) :
    rgbGroupsAt (a ++ ',' :: ' ' :: (b ++ ',' :: ' ' :: (c ++ [')']))) = some (a, b, c) := by
  rcases b with _ | ⟨b0, b'⟩
  · exact absurd rfl hb
  rcases c with _ | ⟨c0, c'⟩
  · exact absurd rfl hc
  have hb0 : isDigitCh b0 = true := hbd b0 (List.mem_cons_self b0 b')
  have hc0 : isDigitCh c0 = true := hcd c0 (List.mem_cons_self c0 c')
  unfold rgbGroupsAt threeGroups
  simp only [List.cons_append]
  obtain ⟨tl1, h1⟩ := plusSplits_head isDigitCh a ','
    (' ' :: b0 :: (b' ++ ',' :: ' ' :: c0 :: (c' ++ [')']))) ha had (by decide)
  rw [show (a ++ ',' :: ' ' :: b0 :: (b' ++ ',' :: ' ' :: c0 :: (c' ++ [')']))) =
    (a ++ ',' :: (' ' :: b0 :: (b' ++ ',' :: ' ' :: c0 :: (c' ++ [')'])))) from rfl, h1]
  refine firstSome_cons_some _ _ _ _ ?_
  dsimp only
  obtain ⟨tl2, h2⟩ := sepOptCommaSpaces_head b0 (b' ++ ',' :: ' ' :: c0 :: (c' ++ [')']))
    (digit_not_space hb0)
  rw [h2]
  refine firstSome_cons_some _ _ _ _ ?_
  dsimp only
  obtain ⟨tl3, h3⟩ := plusSplits_head_cons isDigitCh b0 b' ','
    (' ' :: c0 :: (c' ++ [')'])) hbd (by decide)
  rw [show (b0 :: (b' ++ ',' :: ' ' :: c0 :: (c' ++ [')']))) =
    (b0 :: (b' ++ ',' :: (' ' :: c0 :: (c' ++ [')'])))) from rfl, h3]
  refine firstSome_cons_some _ _ _ _ ?_
  dsimp only
  obtain ⟨tl4, h4⟩ := sepOptCommaSpaces_head c0 (c' ++ [')']) (digit_not_space hc0)
  rw [h4]
  refine firstSome_cons_some _ _ _ _ ?_
  dsimp only
  obtain ⟨tl5, h5⟩ := plusSplits_head_cons isDigitCh c0 c' ')' [] hcd (by decide)
  rw [h5]
  refine firstSome_cons_some _ _ _ _ ?_
  dsimp only
  rfl

theorem rgbSearch_canonical (a b c : JStr)
    (ha : a ≠ []) (had : ∀ ch ∈ a, isDigitCh ch = true)
    (hb : b ≠ []) (hbd : ∀ ch ∈ b, isDigitCh ch = true)
    (hc : c ≠ []) (hcd : ∀ ch ∈ c, isDigitCh ch = true) :
    rgbSearch (mkRgb a b c) = some (a, b, c) := by
  have hg := rgbGroupsAt_canonical a b c ha had hb hbd hc hcd
  rw [mkRgb_cons]
  unfold rgbSearch
  rw [show rgbMatchAt ('r' :: 'g' :: 'b' :: '(' ::
      (a ++ ',' :: ' ' :: (b ++ ',' :: ' ' :: (c ++ [')'])))) =
    rgbGroupsAt (a ++ ',' :: ' ' :: (b ++ ',' :: ' ' :: (c ++ [')']))) from rfl, hg]

theorem normCore_eq_of_lookup_none {lc : JStr} (h : lookupColor lc = none) :
    normCore lc =
      if List.isPrefixOf ['r', 'g', 'b', 'a'] lc then
        (match rgbaSearch lc with
         | some (a, b, c) => mkRgb a b c
         | none => normAfterRgba lc)
      else normAfterRgba lc := by
  unfold normCore
  rw [h]

theorem normAfterRgba_eq (lc : JStr) :
    normAfterRgba lc =
      if List.isPrefixOf ['r', 'g', 'b'] lc then
        (match rgbSearch lc with
         | some (a, b, c) => mkRgb a b c
         | none => normHex lc)
      else normHex lc := rfl

theorem mkRgb_digits_fixed (a b c : JStr)
    (ha : a ≠ []) (had : ∀ ch ∈ a, isDigitCh ch = true)
    (hb : b ≠ []) (hbd : ∀ ch ∈ b, isDigitCh ch = true)
    (hc : c ≠ []) (hcd : ∀ ch ∈ c, isDigitCh ch = true) :
    normalizeColorValue (mkRgb a b c) = mkRgb a b c := by
  show normCore (jsTrim (jsToLower (mkRgb a b c))) = mkRgb a b c
  rw [jsToLower_mkRgb a b c had hbd hcd, jsTrim_mkRgb]
  rw [normCore_eq_of_lookup_none (lookupColor_mkRgb a b c)]
  rw [rgbaPre_mkRgb, if_neg (by decide)]
  rw [normAfterRgba_eq, rgbPre_mkRgb, if_pos rfl]
  rw [rgbSearch_canonical a b c ha had hb hbd hc hcd]

theorem firstSome_some_mem {α β : Type} (f : α → Option β) :
    ∀ (l : List α) (b : β), firstSome f l = some b → ∃ x ∈ l, f x = some b := by
  intro l
  induction l with
  | nil => intro b h; cases h
  | cons a t ih =>
    intro b h
    unfold firstSome at h
    rcases hfa : f a with _ | b'
    · rw [hfa] at h
      obtain ⟨x, hx, hfx⟩ := ih b h
      exact ⟨x, List.mem_cons_of_mem a hx, hfx⟩
    · rw [hfa] at h
      injection h with h
      subst h
      exact ⟨a, List.mem_cons_self a t, hfa⟩

theorem plusSplits_mem (p : Char → Bool) (cs : JStr) (g r : JStr)
    (h : (g, r) ∈ plusSplits p cs) : g ≠ [] ∧ ∀ ch ∈ g, p ch = true := by
  unfold plusSplits at h
  obtain ⟨i, hi, heq⟩ := List.mem_map.mp h
  have hlt := List.mem_range.mp hi
  have hg : List.take ((List.takeWhile p cs).length - i) (List.takeWhile p cs) = g := by
    have := congrArg Prod.fst heq
    simpa using this
  constructor
  · rw [← hg]
    intro hnil
    have hlen := congrArg List.length hnil
    rw [List.length_take] at hlen
    simp only [List.length_nil] at hlen
    simp only [Nat.min_def] at hlen
    split at hlen <;> omega
  · intro ch hch
    rw [← hg] at hch
    exact List.mem_takeWhile_imp (List.take_subset _ _ hch)

/-- Every group returned by `threeGroups` is a nonempty run of the digit
class (it was cut out of a `(\d+)` candidate list). -/
theorem threeGroups_some_digits (sep : JStr → List JStr) (fin : JStr → Bool) (cs : JStr)
    (a b c : JStr) (h : threeGroups sep fin cs = some (a, b, c)) :
    (a ≠ [] ∧ ∀ ch ∈ a, isDigitCh ch = true) ∧
    (b ≠ [] ∧ ∀ ch ∈ b, isDigitCh ch = true) ∧
    (c ≠ [] ∧ ∀ ch ∈ c, isDigitCh ch = true) := by
  unfold threeGroups at h
  obtain ⟨g1, hg1, h1⟩ := firstSome_some_mem _ _ _ h
  obtain ⟨r2, _, h2⟩ := firstSome_some_mem _ _ _ h1
  obtain ⟨g2, hg2, h3⟩ := firstSome_some_mem _ _ _ h2
  obtain ⟨r4, _, h4⟩ := firstSome_some_mem _ _ _ h3
  obtain ⟨g3, hg3, h5⟩ := firstSome_some_mem _ _ _ h4
  have hfacts1 := plusSplits_mem isDigitCh cs g1.1 g1.2 hg1
  have hfacts2 := plusSplits_mem isDigitCh r2 g2.1 g2.2 hg2
  have hfacts3 := plusSplits_mem isDigitCh r4 g3.1 g3.2 hg3
  split at h5
  · injection h5 with h5
    obtain ⟨ha, hb, hc⟩ : g1.1 = a ∧ g2.1 = b ∧ g3.1 = c := by
      simpa [Prod.ext_iff] using h5
    rw [← ha, ← hb, ← hc]
    exact ⟨hfacts1, hfacts2, hfacts3⟩
  · cases h5

theorem rgbMatchAt_some_digits (cs : JStr) (a b c : JStr)
    (h : rgbMatchAt cs = some (a, b, c)) :
    (a ≠ [] ∧ ∀ ch ∈ a, isDigitCh ch = true) ∧
    (b ≠ [] ∧ ∀ ch ∈ b, isDigitCh ch = true) ∧
    (c ≠ [] ∧ ∀ ch ∈ c, isDigitCh ch = true) := by
  unfold rgbMatchAt at h
  split at h
  · exact threeGroups_some_digits _ _ _ a b c h
  · cases h

theorem rgbaMatchAt_some_digits (cs : JStr) (a b c : JStr)
    (h : rgbaMatchAt cs = some (a, b, c)) :
    (a ≠ [] ∧ ∀ ch ∈ a, isDigitCh ch = true) ∧
    (b ≠ [] ∧ ∀ ch ∈ b, isDigitCh ch = true) ∧
    (c ≠ [] ∧ ∀ ch ∈ c, isDigitCh ch = true) := by
  unfold rgbaMatchAt at h
  split at h
  · exact threeGroups_some_digits _ _ _ a b c h
  · exact threeGroups_some_digits _ _ _ a b c h
  · cases h

theorem rgbSearch_some_digits :
    ∀ (lc : JStr) (a b c : JStr), rgbSearch lc = some (a, b, c) →
    (a ≠ [] ∧ ∀ ch ∈ a, isDigitCh ch = true) ∧
    (b ≠ [] ∧ ∀ ch ∈ b, isDigitCh ch = true) ∧
    (c ≠ [] ∧ ∀ ch ∈ c, isDigitCh ch = true) := by
  intro lc
  induction lc with
  | nil => intro a b c h; cases h
  | cons c0 rest ih =>
    intro a b c h
    unfold rgbSearch at h
    rcases hm : rgbMatchAt (c0 :: rest) with _ | g
    · rw [hm] at h
      exact ih a b c h
    · rw [hm] at h
      injection h with h
      subst h
      exact rgbMatchAt_some_digits (c0 :: rest) a b c hm

theorem rgbaSearch_some_digits :
    ∀ (lc : JStr) (a b c : JStr), rgbaSearch lc = some (a, b, c) →
    (a ≠ [] ∧ ∀ ch ∈ a, isDigitCh ch = true) ∧
    (b ≠ [] ∧ ∀ ch ∈ b, isDigitCh ch = true) ∧
    (c ≠ [] ∧ ∀ ch ∈ c, isDigitCh ch = true) := by
  intro lc
  induction lc with
  | nil => intro a b c h; cases h
  | cons c0 rest ih =>
    intro a b c h
    unfold rgbaSearch at h
    rcases hm : rgbaMatchAt (c0 :: rest) with _ | g
    · rw [hm] at h
      exact ih a b c h
    · rw [hm] at h
      injection h with h
      subst h
      exact rgbaMatchAt_some_digits (c0 :: rest) a b c hm

theorem natDigitsAux_spec :
    ∀ (fuel n : Nat), n < fuel →
      natDigitsAux fuel n ≠ [] ∧ ∀ ch ∈ natDigitsAux fuel n, isDigitCh ch = true := by
  intro fuel
  induction fuel with
  | zero => intro n hn; omega
  | succ f ih =>
    intro n hn
    unfold natDigitsAux
    by_cases h10 : n < 10
    · rw [if_pos h10]
      refine ⟨by simp, ?_⟩
      intro ch hch
      simp only [List.mem_singleton] at hch
      subst hch
      simp only [isDigitCh, char_toNat_ofNat (48 + n) (by omega), Bool.and_eq_true,
        decide_eq_true_eq]
      omega
    · rw [if_neg h10]
      have hdiv : n / 10 < f := by
        have := Nat.div_lt_self (by omega : 0 < n) (by omega : 1 < 10)
        omega
      obtain ⟨hne, hall⟩ := ih (n / 10) hdiv
      refine ⟨by simp [hne], ?_⟩
      intro ch hch
      rcases List.mem_append.mp hch with h | h
      · exact hall ch h
      · simp only [List.mem_singleton] at h
        subst h
        simp only [isDigitCh, char_toNat_ofNat (48 + n % 10) (by omega), Bool.and_eq_true,
          decide_eq_true_eq]
        omega

theorem natDigits_nonempty (n : Nat) : natDigits n ≠ [] :=
  (natDigitsAux_spec (n + 1) n (by omega)).1

theorem natDigits_digits (n : Nat) : ∀ ch ∈ natDigits n, isDigitCh ch = true :=
  (natDigitsAux_spec (n + 1) n (by omega)).2

/-- Whether `parseInt(p, 16)` succeeds with a nonnegative value. -/
def nonNegParse (p : JStr) : Bool :=
  match jsParseIntHex p with
  | some v => decide (0 ≤ v)
  | none => false

/-- A lowercased, trimmed input is hex-safe when it does not enter the
hex branch of the normalizer with a failed or negative digit-pair parse
(such a parse renders `NaN` or a minus sign into the canonical string,
which is what breaks idempotence). -/
def hexSafe (lc : JStr) : Bool :=
  match lc with
  | '#' :: [a, b, c] => nonNegParse [a, a] && nonNegParse [b, b] && nonNegParse [c, c]
  | '#' :: [a, b, c, d, e, f] => nonNegParse [a, b] && nonNegParse [c, d] && nonNegParse [e, f]
  | _ => true

theorem nonNegParse_natDigits (p : JStr) (h : nonNegParse p = true) :
    ∃ n : Nat, jsParseIntHex p = some (Int.ofNat n) := by
  unfold nonNegParse at h
  rcases hp : jsParseIntHex p with _ | v
  · rw [hp] at h
    cases h
  · rw [hp] at h
    have hv : 0 ≤ v := of_decide_eq_true h
    obtain ⟨n, rfl⟩ := Int.eq_ofNat_of_zero_le hv
    exact ⟨n, rfl⟩

/-- Under `hexSafe`, the hex branch either falls through to the input or
produces a canonical string whose components are decimal digit runs. -/
theorem normHex_hexSafe (lc : JStr) (h : hexSafe lc = true) :
    normHex lc = lc ∨
    ∃ n1 n2 n3 : Nat, normHex lc = mkRgb (natDigits n1) (natDigits n2) (natDigits n3) := by
  unfold normHex
  split
  · rename_i x y z
    unfold hexSafe at h
    simp only [Bool.and_eq_true] at h
    obtain ⟨⟨h1, h2⟩, h3⟩ := h
    obtain ⟨n1, hp1⟩ := nonNegParse_natDigits _ h1
    obtain ⟨n2, hp2⟩ := nonNegParse_natDigits _ h2
    obtain ⟨n3, hp3⟩ := nonNegParse_natDigits _ h3
    right
    exact ⟨n1, n2, n3, by rw [hp1, hp2, hp3]; rfl⟩
  · rename_i x y z w v u
    unfold hexSafe at h
    simp only [Bool.and_eq_true] at h
    obtain ⟨⟨h1, h2⟩, h3⟩ := h
    obtain ⟨n1, hp1⟩ := nonNegParse_natDigits _ h1
    obtain ⟨n2, hp2⟩ := nonNegParse_natDigits _ h2
    obtain ⟨n3, hp3⟩ := nonNegParse_natDigits _ h3
    right
    exact ⟨n1, n2, n3, by rw [hp1, hp2, hp3]; rfl⟩
  · left
    rfl

theorem lookupColor_some_fixed (lc v : JStr) (h : lookupColor lc = some v) :
    normalizeColorValue v = v := by
  unfold lookupColor at h
  by_cases h1 : lc = ['y', 'e', 'l', 'l', 'o', 'w']
  · rw [if_pos h1] at h
    injection h with h; subst h;
      exact mkRgb_digits_fixed _ _ _ (by decide) (by decide) (by decide) (by decide) (by decide) (by decide)
  rw [if_neg h1] at h
  by_cases h2 : lc = ['b', 'l', 'u', 'e']
  · rw [if_pos h2] at h
    injection h with h; subst h;
      exact mkRgb_digits_fixed _ _ _ (by decide) (by decide) (by decide) (by decide) (by decide) (by decide)
  rw [if_neg h2] at h
  by_cases h3 : lc = ['r', 'e', 'd']
  · rw [if_pos h3] at h
    injection h with h; subst h;
      exact mkRgb_digits_fixed _ _ _ (by decide) (by decide) (by decide) (by decide) (by decide) (by decide)
  rw [if_neg h3] at h
  by_cases h4 : lc = ['g', 'r', 'e', 'e', 'n']
  · rw [if_pos h4] at h
    injection h with h; subst h;
      exact mkRgb_digits_fixed _ _ _ (by decide) (by decide) (by decide) (by decide) (by decide) (by decide)
  rw [if_neg h4] at h
  by_cases h5 : lc = ['w', 'h', 'i', 't', 'e']
  · rw [if_pos h5] at h
    injection h with h; subst h;
      exact mkRgb_digits_fixed _ _ _ (by decide) (by decide) (by decide) (by decide) (by decide) (by decide)
  rw [if_neg h5] at h
  by_cases h6 : lc = ['b', 'l', 'a', 'c', 'k']
  · rw [if_pos h6] at h
    injection h with h; subst h;
      exact mkRgb_digits_fixed _ _ _ (by decide) (by decide) (by decide) (by decide) (by decide) (by decide)
  rw [if_neg h6] at h
  by_cases h7 : lc = ['g', 'r', 'a', 'y']
  · rw [if_pos h7] at h
    injection h with h; subst h;
      exact mkRgb_digits_fixed _ _ _ (by decide) (by decide) (by decide) (by decide) (by decide) (by decide)
  rw [if_neg h7] at h
  by_cases h8 : lc = ['g', 'r', 'e', 'y']
  · rw [if_pos h8] at h
    injection h with h; subst h;
      exact mkRgb_digits_fixed _ _ _ (by decide) (by decide) (by decide) (by decide) (by decide) (by decide)
  rw [if_neg h8] at h
  by_cases h9 : lc = ['o', 'r', 'a', 'n', 'g', 'e']
  · rw [if_pos h9] at h
    injection h with h; subst h;
      exact mkRgb_digits_fixed _ _ _ (by decide) (by decide) (by decide) (by decide) (by decide) (by decide)
  rw [if_neg h9] at h
  by_cases h10 : lc = ['p', 'u', 'r', 'p', 'l', 'e']
  · rw [if_pos h10] at h
    injection h with h; subst h;
      exact mkRgb_digits_fixed _ _ _ (by decide) (by decide) (by decide) (by decide) (by decide) (by decide)
  rw [if_neg h10] at h
  by_cases h11 : lc = ['p', 'i', 'n', 'k']
  · rw [if_pos h11] at h
    injection h with h; subst h;
      exact mkRgb_digits_fixed _ _ _ (by decide) (by decide) (by decide) (by decide) (by decide) (by decide)
  rw [if_neg h11] at h
  by_cases h12 : lc = ['b', 'r', 'o', 'w', 'n']
  · rw [if_pos h12] at h
    injection h with h; subst h;
      exact mkRgb_digits_fixed _ _ _ (by decide) (by decide) (by decide) (by decide) (by decide) (by decide)
  rw [if_neg h12] at h
  by_cases h13 : lc = ['c', 'y', 'a', 'n']
  · rw [if_pos h13] at h
    injection h with h; subst h;
      exact mkRgb_digits_fixed _ _ _ (by decide) (by decide) (by decide) (by decide) (by decide) (by decide)
  rw [if_neg h13] at h
  by_cases h14 : lc = ['m', 'a', 'g', 'e', 'n', 't', 'a']
  · rw [if_pos h14] at h
    injection h with h; subst h;
      exact mkRgb_digits_fixed _ _ _ (by decide) (by decide) (by decide) (by decide) (by decide) (by decide)
  rw [if_neg h14] at h
  cases h

theorem normHex_fixed_of_chain (lc : JStr) (hst : jsTrim (jsToLower lc) = lc)
    (hsafe : hexSafe lc = true) (hval : normCore lc = normHex lc) :
    normalizeColorValue (normCore lc) = normCore lc := by
  rcases normHex_hexSafe lc hsafe with heq | ⟨n1, n2, n3, heq⟩
  · rw [hval, heq]
    show normCore (jsTrim (jsToLower lc)) = lc
    rw [hst, hval, heq]
  · rw [hval, heq]
    exact mkRgb_digits_fixed _ _ _ (natDigits_nonempty n1) (natDigits_digits n1)
      (natDigits_nonempty n2) (natDigits_digits n2)
      (natDigits_nonempty n3) (natDigits_digits n3)

theorem normCore_output_fixed (lc : JStr) (hst : jsTrim (jsToLower lc) = lc)
    (hsafe : hexSafe lc = true) :
    normalizeColorValue (normCore lc) = normCore lc := by
  rcases hlk : lookupColor lc with _ | v
  · rcases hpa : List.isPrefixOf ['r', 'g', 'b', 'a'] lc with _ | _
    · rcases hpr : List.isPrefixOf ['r', 'g', 'b'] lc with _ | _
      · apply normHex_fixed_of_chain lc hst hsafe
        rw [normCore_eq_of_lookup_none hlk, hpa, if_neg (by decide : ¬(false = true))]
        rw [normAfterRgba_eq, hpr, if_neg (by decide : ¬(false = true))]
      · rcases hrs : rgbSearch lc with _ | ⟨a, b, c⟩
        · apply normHex_fixed_of_chain lc hst hsafe
          rw [normCore_eq_of_lookup_none hlk, hpa, if_neg (by decide : ¬(false = true))]
          rw [normAfterRgba_eq, hpr, if_pos rfl, hrs]
        · have hfacts := rgbSearch_some_digits lc a b c hrs
          have hval : normCore lc = mkRgb a b c := by
            rw [normCore_eq_of_lookup_none hlk, hpa, if_neg (by decide : ¬(false = true))]
            rw [normAfterRgba_eq, hpr, if_pos rfl, hrs]
          rw [hval]
          exact mkRgb_digits_fixed a b c hfacts.1.1 hfacts.1.2 hfacts.2.1.1 hfacts.2.1.2
            hfacts.2.2.1 hfacts.2.2.2
    · rcases hras : rgbaSearch lc with _ | ⟨a, b, c⟩
      · rcases hpr : List.isPrefixOf ['r', 'g', 'b'] lc with _ | _
        · apply normHex_fixed_of_chain lc hst hsafe
          rw [normCore_eq_of_lookup_none hlk, hpa, if_pos rfl, hras]
          rw [normAfterRgba_eq, hpr, if_neg (by decide : ¬(false = true))]
        · rcases hrs : rgbSearch lc with _ | ⟨a, b, c⟩
          · apply normHex_fixed_of_chain lc hst hsafe
            rw [normCore_eq_of_lookup_none hlk, hpa, if_pos rfl, hras]
            rw [normAfterRgba_eq, hpr, if_pos rfl, hrs]
          · have hfacts := rgbSearch_some_digits lc a b c hrs
            have hval : normCore lc = mkRgb a b c := by
              rw [normCore_eq_of_lookup_none hlk, hpa, if_pos rfl, hras]
              rw [normAfterRgba_eq, hpr, if_pos rfl, hrs]
            rw [hval]
            exact mkRgb_digits_fixed a b c hfacts.1.1 hfacts.1.2 hfacts.2.1.1 hfacts.2.1.2
              hfacts.2.2.1 hfacts.2.2.2
      · have hfacts := rgbaSearch_some_digits lc a b c hras
        have hval : normCore lc = mkRgb a b c := by
          rw [normCore_eq_of_lookup_none hlk, hpa, if_pos rfl, hras]
        rw [hval]
        exact mkRgb_digits_fixed a b c hfacts.1.1 hfacts.1.2 hfacts.2.1.1 hfacts.2.1.2
          hfacts.2.2.1 hfacts.2.2.2
  · have hval : normCore lc = v := by
      unfold normCore
      rw [hlk]
    rw [hval]
    exact lookupColor_some_fixed lc v hlk

/-- C8 counterexample: `#zzz` takes the hex branch with unparsable
pairs, normalizing to `rgb(NaN, NaN, NaN)`; a second application
lowercases the `NaN`s (to `rgb(nan, nan, nan)`), so idempotence fails. -/
theorem C8_counterexample_malformed_hex :
    normalizeColorValue (normalizeColorValue "#zzz".data) ≠
      normalizeColorValue "#zzz".data ∧
    normalizeColorValue "#zzz".data = "rgb(NaN, NaN, NaN)".data := by
  exact ⟨by decide, by decide⟩

/-- C8, amended: the color normalizer is idempotent on every input that
does not take the hex branch with a failed or negative digit-pair parse
(`hexSafe`); in particular normalizing an already-canonical value
returns it unchanged.  On a malformed `#`-input such as `#zzz` the
normal form contains `NaN`, which a second application lowercases. -/
theorem C8_normalize_idempotent_on_hex_safe (x : JStr)
    (h : hexSafe (jsTrim (jsToLower x)) = true) :
    normalizeColorValue (normalizeColorValue x) = normalizeColorValue x :=
  normCore_output_fixed (jsTrim (jsToLower x)) (lowtrim_stable x) h

/-- C8 witness: idempotence at a concrete hex-safe input. -/
theorem C8_normalize_idempotent_on_hex_safe_witness :
    hexSafe (jsTrim (jsToLower "rgba(255,255,0,0.5)".data)) = true ∧
    normalizeColorValue (normalizeColorValue "rgba(255,255,0,0.5)".data) =
      normalizeColorValue "rgba(255,255,0,0.5)".data :=
  ⟨by decide, C8_normalize_idempotent_on_hex_safe "rgba(255,255,0,0.5)".data (by decide)⟩
